import Mathlib

/-!
Verification of the rural-health triage core (src/app.py): the risk-scoring
engine (`calculate_risk_score`, `get_risk_level`, `get_recommendation`), the
visit-record store (`load_data` and the inline append of `visit_data`), and
the dashboard query pipeline (`filtered_data`, the stable descending sort).
Python integers are embedded as `Int`, the floating-point temperature as
`Rat`, Python lists as `List`, and dictionary lookups with defaults as
`Option.getD`.
-/

namespace RuralTriage

/-- Symptom vocabulary scored at 25 points each (app.py line 40). -/
def critical_symptoms : List String :=
  ["chest_pain", "breathlessness", "confusion", "severe_bleeding"]

/-- Symptom vocabulary scored at 10 points each (app.py line 41). -/
def moderate_symptoms : List String :=
  ["high_fever", "persistent_cough", "severe_pain"]

/-- Condition vocabulary scored at 15 points each (app.py line 70). -/
def high_risk_conditions : List String :=
  ["heart_disease", "copd"]

/-- Condition vocabulary scored at 10 points each (app.py line 71). -/
def moderate_risk_conditions : List String :=
  ["diabetes", "hypertension", "pregnancy"]

/-- The `vitals` dictionary (app.py lines 52-56): each key optional, read
with `dict.get(key, default)`. Temperature is a Python float, embedded as
`Rat`; the other vitals are integers. -/
structure Vitals where
  bp_systolic : Option Int
  bp_diastolic : Option Int
  heart_rate : Option Int
  temperature : Option Rat
  spo2 : Option Int
deriving DecidableEq

/-- Per-symptom contribution of the loop at app.py lines 43-49. -/
def symptom_points (symptom : String) : Int :=
  if symptom ∈ critical_symptoms then 25
  else if symptom ∈ moderate_symptoms then 10
  else 5

/-- Per-condition contribution of the loop at app.py lines 73-77. -/
def condition_points (condition : String) : Int :=
  if condition ∈ high_risk_conditions then 15
  else if condition ∈ moderate_risk_conditions then 10
  else 0

/-- Age contribution (app.py lines 34-37). -/
def age_points (age : Int) : Int :=
  if age < 5 then 15
  else if age > 60 then 20
  else 0

/-- Vitals contribution (app.py lines 52-67): each check independent and
additive; missing vitals use the baseline defaults 120/80, 75, 98.6, 98. -/
def vitals_points (vitals : Vitals) : Int :=
  let bp_sys := vitals.bp_systolic.getD 120
  let bp_dia := vitals.bp_diastolic.getD 80
  let heart_rate := vitals.heart_rate.getD 75
  let temp := vitals.temperature.getD (98.6 : Rat)
  let spo2 := vitals.spo2.getD 98
  (if bp_sys > 140 ∨ bp_sys < 90 then 15 else 0)
  + (if bp_dia > 90 ∨ bp_dia < 60 then 10 else 0)
  + (if heart_rate > 100 ∨ heart_rate < 50 then 15 else 0)
  + (if temp > (101 : Rat) then 10 else 0)
  + (if spo2 < 94 then 20 else 0)

/-- The accumulated `score` variable of `calculate_risk_score` just before
the final `return min(score, 100)` (app.py lines 31-77): age, then the
symptom loop, then vitals, then the condition loop. -/
def raw_risk_score (age : Int) (symptoms : List String) (vitals : Vitals)
    (conditions : List String) : Int :=
  let s1 := 0 + age_points age
  let s2 := symptoms.foldl (fun sc symptom => sc + symptom_points symptom) s1
  let s3 := s2 + vitals_points vitals
  conditions.foldl (fun sc condition => sc + condition_points condition) s3

/-- `calculate_risk_score` (app.py lines 29-79): accumulated score capped at
100 by `min(score, 100)`. -/
def calculate_risk_score (age : Int) (symptoms : List String) (vitals : Vitals)
    (conditions : List String) : Int :=
  min (raw_risk_score age symptoms vitals conditions) 100

/-- `get_risk_level` (app.py lines 81-88). -/
def get_risk_level (score : Int) : String :=
  if score ≥ 60 then "HIGH"
  else if score ≥ 30 then "MEDIUM"
  else "LOW"

/-- `get_recommendation` (app.py lines 90-97); the `score` argument is
accepted but never read. -/
def get_recommendation (risk_level : String) (score : Int) : String :=
  if risk_level = "HIGH" then "⚠️ URGENT REFERRAL TO PHC/HOSPITAL"
  else if risk_level = "MEDIUM" then "📋 Schedule Follow-up within 48 hours"
  else "✅ Home Care with monitoring"

/-- Numeric rank of a risk-level string, for stating monotonicity of the
tier mapping: LOW < MEDIUM < HIGH. -/
def levelRank (level : String) : Nat :=
  if level = "HIGH" then 2
  else if level = "MEDIUM" then 1
  else 0

/-- One persisted visit record, with the fields of the `visit_data`
dictionary (app.py lines 203-218). -/
structure VisitRecord where
  id : Nat
  patient_name : String
  age : Int
  gender : String
  village : String
  health_worker : String
  visit_date : String
  symptoms : List String
  conditions : List String
  vitals : Vitals
  risk_score : Int
  risk_level : String
  recommendation : String
  timestamp : String
deriving DecidableEq

/-- The append path of the save block (app.py lines 203-224): the new
record's `id` is `len(load_data()) + 1`, i.e. the number of records already
persisted plus one, and the record is appended at the end of the
collection. -/
def append_visit (data : List VisitRecord) (r : VisitRecord) : List VisitRecord :=
  data ++ [{ r with id := data.length + 1 }]

/-- Sequentially append each record of `rs`, threading the store. -/
def append_visits (data : List VisitRecord) (rs : List VisitRecord) : List VisitRecord :=
  rs.foldl append_visit data

/-- State of the backing JSON document `patient_visits.json`: absent,
present and parseable to a record list, or present but unparseable. -/
inductive FileState where
  | missing
  | wellFormed (records : List VisitRecord)
  | corrupt
deriving DecidableEq

/-- `load_data` (app.py lines 17-22): if the file exists it is handed to
`json.load`, which returns the parsed collection on well-formed content and
raises `json.decoder.JSONDecodeError` (embedded as `Except.error`) on
corrupt content; if the file does not exist, `[]` is returned. There is no
exception handler in the source. -/
def load_data : FileState → Except String (List VisitRecord)
  | FileState.missing => Except.ok []
  | FileState.wellFormed records => Except.ok records
  | FileState.corrupt => Except.error "json.decoder.JSONDecodeError"

/-- The dashboard filter (app.py lines 273-276): keep records whose
`risk_level` is in `filter_risk` and whose `village` is in
`filter_village`. -/
def filtered_data (data : List VisitRecord) (filter_risk : List String)
    (filter_village : List String) : List VisitRecord :=
  data.filter (fun d => decide (d.risk_level ∈ filter_risk ∧ d.village ∈ filter_village))

/-- The comparison underlying `filtered_data.sort(key=..., reverse=True)`
(app.py line 279): `a` may precede `b` when `b`'s score is at most `a`'s. -/
def scoreGE (a b : VisitRecord) : Prop := b.risk_score ≤ a.risk_score

instance : DecidableRel scoreGE := fun a b =>
  inferInstanceAs (Decidable (b.risk_score ≤ a.risk_score))

instance : IsTotal VisitRecord scoreGE :=
  ⟨fun a b => (le_total b.risk_score a.risk_score).imp id id⟩

instance : IsTrans VisitRecord scoreGE :=
  ⟨fun _ _ _ hab hbc => le_trans hbc hab⟩

/-- `filtered_data.sort(key=lambda x: x['risk_score'], reverse=True)`
(app.py line 279): Python's list sort is stable; with `reverse=True` it
places higher scores first and keeps tied records in original order, which
insertion sort under `scoreGE` reproduces. -/
def sort_by_score_desc (records : List VisitRecord) : List VisitRecord :=
  records.insertionSort scoreGE

/-- Accumulating `f` over a list starting from `init` equals `init` plus the
sum of the per-element contributions. -/
theorem foldl_add_eq {α : Type} (f : α → Int) :
    ∀ (l : List α) (init : Int),
      l.foldl (fun sc x => sc + f x) init = init + (l.map f).sum
  | [], init => by simp
  | a :: l, init => by
    rw [List.foldl_cons, foldl_add_eq f l (init + f a), List.map_cons,
      List.sum_cons, add_assoc]

/-- The accumulated score is the sum of the four contribution groups. -/
theorem raw_risk_score_eq (age : Int) (symptoms : List String) (vitals : Vitals)
    (conditions : List String) :
    raw_risk_score age symptoms vitals conditions =
      age_points age + (symptoms.map symptom_points).sum + vitals_points vitals
        + (conditions.map condition_points).sum := by
  unfold raw_risk_score
  rw [foldl_add_eq, foldl_add_eq]
  ring

theorem symptom_points_nonneg (symptom : String) : 0 ≤ symptom_points symptom := by
  unfold symptom_points
  split_ifs <;> norm_num

theorem condition_points_nonneg (condition : String) : 0 ≤ condition_points condition := by
  unfold condition_points
  split_ifs <;> norm_num

theorem age_points_nonneg (age : Int) : 0 ≤ age_points age := by
  unfold age_points
  split_ifs <;> norm_num

theorem vitals_points_nonneg (vitals : Vitals) : 0 ≤ vitals_points vitals := by
  simp only [vitals_points]
  split_ifs <;> norm_num

theorem raw_risk_score_nonneg (age : Int) (symptoms : List String) (vitals : Vitals)
    (conditions : List String) :
    0 ≤ raw_risk_score age symptoms vitals conditions := by
  rw [raw_risk_score_eq]
  have h1 := age_points_nonneg age
  have h2 : 0 ≤ (symptoms.map symptom_points).sum := by
    apply List.sum_nonneg
    intro x hx
    obtain ⟨s, _, rfl⟩ := List.mem_map.mp hx
    exact symptom_points_nonneg s
  have h3 := vitals_points_nonneg vitals
  have h4 : 0 ≤ (conditions.map condition_points).sum := by
    apply List.sum_nonneg
    intro x hx
    obtain ⟨c, _, rfl⟩ := List.mem_map.mp hx
    exact condition_points_nonneg c
  linarith

/-- C1: for every age, symptom list, vitals mapping and condition list,
`calculate_risk_score` returns a score in the closed interval [0, 100]. -/
theorem calculate_risk_score_in_range (age : Int) (symptoms : List String)
    (vitals : Vitals) (conditions : List String) :
    0 ≤ calculate_risk_score age symptoms vitals conditions ∧
      calculate_risk_score age symptoms vitals conditions ≤ 100 :=
  ⟨le_min (raw_risk_score_nonneg age symptoms vitals conditions) (by norm_num),
   min_le_right _ _⟩

/-- C5: age 70, symptoms chest_pain and breathlessness, condition
heart_disease, SpO2 90 with all other vitals at baseline: the raw sum is
105 (20 age + 25 + 25 symptoms + 15 condition + 20 SpO2), the returned
score is the clamp 100, the level is HIGH and the recommendation is the
urgent-referral text. -/
theorem high_risk_example_eval :
    raw_risk_score 70 ["chest_pain", "breathlessness"]
        ⟨none, none, none, none, some 90⟩ ["heart_disease"] = 105 ∧
    raw_risk_score 70 ["chest_pain", "breathlessness"]
        ⟨some 120, some 80, some 75, some (98.6 : Rat), some 90⟩ ["heart_disease"] = 105 ∧
    calculate_risk_score 70 ["chest_pain", "breathlessness"]
        ⟨none, none, none, none, some 90⟩ ["heart_disease"] = 100 ∧
    get_risk_level 100 = "HIGH" ∧
    get_recommendation "HIGH" 100 = "⚠️ URGENT REFERRAL TO PHC/HOSPITAL" := by
  refine ⟨?_, ?_, ?_, rfl, rfl⟩ <;>
    simp +decide [calculate_risk_score, raw_risk_score, age_points, symptom_points,
      condition_points, vitals_points, critical_symptoms, moderate_symptoms,
      high_risk_conditions, moderate_risk_conditions, min_def] <;>
    all_goals norm_num

/-- C6: the baseline default vitals (120/80, 75, 98.6, 98) — used whenever
a vital is absent — trip none of the five thresholds and contribute 0, and
age 30 with no symptoms, the single condition tag none and baseline vitals
yields score 0 and level LOW. -/
theorem baseline_defaults_zero :
    vitals_points ⟨none, none, none, none, none⟩ = 0 ∧
    vitals_points ⟨some 120, some 80, some 75, some (98.6 : Rat), some 98⟩ = 0 ∧
    calculate_risk_score 30 [] ⟨none, none, none, none, none⟩ ["none"] = 0 ∧
    calculate_risk_score 30 []
        ⟨some 120, some 80, some 75, some (98.6 : Rat), some 98⟩ ["none"] = 0 ∧
    get_risk_level (calculate_risk_score 30 [] ⟨none, none, none, none, none⟩ ["none"])
      = "LOW" := by
  refine ⟨?_, ?_, ?_, ?_, ?_⟩ <;>
    simp +decide [get_risk_level, calculate_risk_score, raw_risk_score, age_points,
      symptom_points, condition_points, vitals_points, critical_symptoms,
      moderate_symptoms, high_risk_conditions, moderate_risk_conditions, min_def] <;>
    all_goals norm_num

/-- C9: the recommendation depends only on the level — for any level string
the returned text is the same for every score — and it is always one of the
three fixed advisory strings, with HIGH mapped to urgent referral, MEDIUM
to the 48-hour follow-up and LOW to home care. -/
theorem get_recommendation_level_determined :
    (∀ (level : String) (s1 s2 : Int),
        get_recommendation level s1 = get_recommendation level s2) ∧
    (∀ (level : String) (s : Int),
        get_recommendation level s = "⚠️ URGENT REFERRAL TO PHC/HOSPITAL" ∨
        get_recommendation level s = "📋 Schedule Follow-up within 48 hours" ∨
        get_recommendation level s = "✅ Home Care with monitoring") ∧
    (∀ s : Int,
        get_recommendation "HIGH" s = "⚠️ URGENT REFERRAL TO PHC/HOSPITAL" ∧
        get_recommendation "MEDIUM" s = "📋 Schedule Follow-up within 48 hours" ∧
        get_recommendation "LOW" s = "✅ Home Care with monitoring") := by
  refine ⟨fun level s1 s2 => rfl, fun level s => ?_, fun s => ⟨rfl, rfl, rfl⟩⟩
  unfold get_recommendation
  split_ifs <;> simp

/-- C2: `get_risk_level` maps every score to exactly one tier with
inclusive-lower boundaries — HIGH for scores at least 60, MEDIUM for scores
in [30, 60), LOW below 30 — with 29 mapping to LOW, 30 and 59 to MEDIUM,
60 to HIGH, and the tier is monotonic non-decreasing in the score. -/
theorem get_risk_level_spec :
    (∀ s : Int, 60 ≤ s → get_risk_level s = "HIGH") ∧
    (∀ s : Int, 30 ≤ s → s < 60 → get_risk_level s = "MEDIUM") ∧
    (∀ s : Int, s < 30 → get_risk_level s = "LOW") ∧
    (get_risk_level 29 = "LOW" ∧ get_risk_level 30 = "MEDIUM" ∧
      get_risk_level 59 = "MEDIUM" ∧ get_risk_level 60 = "HIGH") ∧
    (∀ s t : Int, s ≤ t →
      levelRank (get_risk_level s) ≤ levelRank (get_risk_level t)) := by
  refine ⟨?_, ?_, ?_, ⟨rfl, rfl, rfl, rfl⟩, ?_⟩
  · intro s hs
    unfold get_risk_level
    split_ifs <;> first | rfl | (exfalso; omega)
  · intro s hs hs'
    unfold get_risk_level
    split_ifs <;> first | rfl | (exfalso; omega)
  · intro s hs
    unfold get_risk_level
    split_ifs <;> first | rfl | (exfalso; omega)
  · intro s t hst
    unfold get_risk_level
    split_ifs <;> first | decide | (exfalso; omega)

/-- Witness for C2 at concrete scores: boundaries 60, 30, 29 and the
monotonicity instance 29 ≤ 60. -/
theorem get_risk_level_spec_witness :
    get_risk_level 60 = "HIGH" ∧ get_risk_level 30 = "MEDIUM" ∧
    get_risk_level 29 = "LOW" ∧
    levelRank (get_risk_level 29) ≤ levelRank (get_risk_level 60) :=
  ⟨get_risk_level_spec.1 60 (by norm_num),
   get_risk_level_spec.2.1 30 (by norm_num) (by norm_num),
   get_risk_level_spec.2.2.1 29 (by norm_num),
   get_risk_level_spec.2.2.2.2 29 60 (by norm_num)⟩

/-- C4 counterexample: on a corrupt (unparseable) backing document,
`load_data` does not return the empty collection — `json.load` raises and
no handler catches it, so the read is a fatal error, contradicting the
claim that both the missing and corrupt cases yield the empty sequence. -/
theorem load_data_corrupt_not_empty :
    load_data FileState.corrupt ≠ Except.ok ([] : List VisitRecord) := by
  simp [load_data]

/-- C4 amended: a missing backing document yields the empty collection
without raising, and a well-formed document yields its records; a corrupt
document instead makes `load_data` propagate the JSON parse error. -/
theorem load_data_missing_empty_corrupt_raises :
    load_data FileState.missing = Except.ok [] ∧
    load_data FileState.corrupt = Except.error "json.decoder.JSONDecodeError" ∧
    ∀ records : List VisitRecord,
      load_data (FileState.wellFormed records) = Except.ok records :=
  ⟨rfl, rfl, fun _ => rfl⟩

/-- C7: the dashboard filter keeps exactly the records whose level is in
the selected levels AND whose village is in the selected villages, and an
empty selection on either axis yields the empty sequence regardless of the
other (no implicit wildcard). -/
theorem filtered_data_spec :
    (∀ (data : List VisitRecord) (levels villages : List String) (r : VisitRecord),
        r ∈ filtered_data data levels villages ↔
          r ∈ data ∧ r.risk_level ∈ levels ∧ r.village ∈ villages) ∧
    (∀ (data : List VisitRecord) (villages : List String),
        filtered_data data [] villages = []) ∧
    (∀ (data : List VisitRecord) (levels : List String),
        filtered_data data levels [] = []) := by
  refine ⟨?_, ?_, ?_⟩
  · intro data levels villages r
    simp [filtered_data, List.mem_filter]
  · intro data villages
    simp [filtered_data]
  · intro data levels
    simp [filtered_data]

theorem append_visit_map_id (data : List VisitRecord) (r : VisitRecord) :
    (append_visit data r).map (fun v => v.id)
      = data.map (fun v => v.id) ++ [data.length + 1] := by
  simp [append_visit]

theorem append_visits_map_id :
    ∀ (rs data : List VisitRecord),
      (append_visits data rs).map (fun v => v.id)
        = data.map (fun v => v.id) ++ List.range' (data.length + 1) rs.length
  | [], data => by simp [append_visits]
  | r :: rs, data => by
    have h := append_visits_map_id rs (append_visit data r)
    simp only [append_visits, List.foldl_cons] at h ⊢
    rw [h, append_visit_map_id]
    have hlen : (append_visit data r).length = data.length + 1 := by
      simp [append_visit]
    rw [hlen]
    simp [List.length_cons, List.range'_succ, List.append_assoc]

/-- C3: appending N records sequentially from the empty store yields
records whose ids are exactly 1..N in insertion order (no gaps, no
duplicates), the store then holds exactly N records, and each single
append assigns id equal to the number of records persisted before it,
plus one. -/
theorem append_ids_sequential :
    (∀ rs : List VisitRecord,
        (append_visits [] rs).length = rs.length ∧
        (append_visits [] rs).map (fun v => v.id) = List.range' 1 rs.length ∧
        ((append_visits [] rs).map (fun v => v.id)).Nodup) ∧
    (∀ (data : List VisitRecord) (r : VisitRecord),
        (append_visit data r).map (fun v => v.id)
          = data.map (fun v => v.id) ++ [data.length + 1]) := by
  constructor
  · intro rs
    have h := append_visits_map_id rs []
    simp only [List.map_nil, List.length_nil, List.nil_append, Nat.zero_add] at h
    refine ⟨?_, h, ?_⟩
    · have hl := congrArg List.length h
      simpa using hl
    · rw [h]
      exact List.nodup_range' 1 rs.length
  · exact append_visit_map_id

/-- Filtering an ordered insertion by an exact score: elements skipped
before the insertion point have a strictly larger score, so the inserted
record lands in front of every record sharing its score. -/
theorem filter_orderedInsert (k : Int) (a : VisitRecord) :
    ∀ l : List VisitRecord,
      (List.orderedInsert scoreGE a l).filter (fun r => decide (r.risk_score = k))
        = if a.risk_score = k
            then a :: l.filter (fun r => decide (r.risk_score = k))
            else l.filter (fun r => decide (r.risk_score = k))
  | [] => by
    simp only [List.orderedInsert, List.filter]
    by_cases hk : a.risk_score = k
    · simp [hk]
    · simp [hk]
  | b :: l => by
    simp only [List.orderedInsert]
    by_cases hr : scoreGE a b
    · rw [if_pos hr]
      by_cases hk : a.risk_score = k
      · rw [if_pos hk]
        simp [List.filter_cons, hk]
      · rw [if_neg hk]
        simp [List.filter_cons, hk]
    · rw [if_neg hr]
      have ih := filter_orderedInsert k a l
      by_cases hk : a.risk_score = k
      · rw [if_pos hk]
        have hbk : ¬ b.risk_score = k := by
          intro hb
          exact hr (le_of_eq (hb.trans hk.symm))
        rw [if_pos hk] at ih
        simp [List.filter_cons, hbk, ih]
      · rw [if_neg hk]
        rw [if_neg hk] at ih
        simp [List.filter_cons, ih]

/-- Stability of the descending sort: the subsequence of records carrying
any fixed score is unchanged by sorting. -/
theorem filter_sort_by_score (k : Int) :
    ∀ l : List VisitRecord,
      (sort_by_score_desc l).filter (fun r => decide (r.risk_score = k))
        = l.filter (fun r => decide (r.risk_score = k))
  | [] => rfl
  | a :: l => by
    have ih := filter_sort_by_score k l
    simp only [sort_by_score_desc, List.insertionSort] at ih ⊢
    rw [filter_orderedInsert k a (List.insertionSort scoreGE l)]
    by_cases hk : a.risk_score = k
    · rw [if_pos hk, ih]
      simp [List.filter_cons, hk]
    · rw [if_neg hk, ih]
      simp [List.filter_cons, hk]

/-- A record with only a name and a risk score set, for concrete sorting
examples. -/
def exampleRecord (name : String) (score : Int) : VisitRecord :=
  ⟨0, name, 0, "", "", "", "", [], [], ⟨none, none, none, none, none⟩,
    score, "", "", ""⟩

/-- C8: sorting by score descending is stable — the output is sorted with
higher scores first, is a permutation of the input, and the records
sharing any fixed score keep their original relative order; on scores
[40, 40, 80, 10] the 80 comes first, the 10 last, and the two 40s stay in
input order. -/
theorem sort_by_score_desc_stable :
    (∀ l : List VisitRecord, List.Sorted scoreGE (sort_by_score_desc l)) ∧
    (∀ l : List VisitRecord, (sort_by_score_desc l).Perm l) ∧
    (∀ (l : List VisitRecord) (k : Int),
        (sort_by_score_desc l).filter (fun r => decide (r.risk_score = k))
          = l.filter (fun r => decide (r.risk_score = k))) ∧
    sort_by_score_desc [exampleRecord "a" 40, exampleRecord "b" 40,
        exampleRecord "c" 80, exampleRecord "d" 10]
      = [exampleRecord "c" 80, exampleRecord "a" 40, exampleRecord "b" 40,
        exampleRecord "d" 10] := by
  refine ⟨?_, ?_, ?_, by decide⟩
  · intro l
    exact List.sorted_insertionSort scoreGE l
  · intro l
    exact List.perm_insertionSort scoreGE l
  · intro l k
    exact filter_sort_by_score k l

/-- C10: the score is monotone in the symptom and condition collections —
inserting any extra symptom tag, or any extra condition tag, at any
position never decreases the returned score. -/
theorem calculate_risk_score_monotone_tags :
    (∀ (age : Int) (vitals : Vitals) (conditions pre post : List String) (tag : String),
        calculate_risk_score age (pre ++ post) vitals conditions ≤
          calculate_risk_score age (pre ++ tag :: post) vitals conditions) ∧
    (∀ (age : Int) (vitals : Vitals) (symptoms pre post : List String) (tag : String),
        calculate_risk_score age symptoms vitals (pre ++ post) ≤
          calculate_risk_score age symptoms vitals (pre ++ tag :: post)) := by
  constructor
  · intro age vitals conditions pre post tag
    unfold calculate_risk_score
    apply min_le_min _ le_rfl
    rw [raw_risk_score_eq, raw_risk_score_eq]
    have h := symptom_points_nonneg tag
    simp only [List.map_append, List.sum_append, List.map_cons, List.sum_cons]
    linarith
  · intro age vitals symptoms pre post tag
    unfold calculate_risk_score
    apply min_le_min _ le_rfl
    rw [raw_risk_score_eq, raw_risk_score_eq]
    have h := condition_points_nonneg tag
    simp only [List.map_append, List.sum_append, List.map_cons, List.sum_cons]
    linarith

end RuralTriage
